import Mathlib

/-!
Shallow embedding of `src/lambda/ec2-monitor.ts` from the
ec2-automatic-alarm-creator sample, together with proofs about its
event-driven reconciliation core (event dispatcher, agent provisioner,
remote-command waiter, alarm reconciler, instance-metadata resolver).

Remote collaborators (SSM, CloudWatch, EC2) are modelled as oracles
supplied through an `Env` record; each embedded operation returns the
list of remote calls it issued (its trace) together with its result.
-/

namespace EC2Monitor

/-! ## Remote Command Waiter (`waitForCommandCompletion`) -/

/-- Outcome of one `ssm.getCommandInvocation` poll, as seen by the waiter:
the call returns a record whose `Status` may be absent (`.ok`), throws the
distinguished `InvocationDoesNotExist` error, or throws some other error. -/
inductive PollOutcome where
  | ok (status : Option String) (standardErrorContent : Option String)
  | invocationDoesNotExist
  | err (e : String)
deriving Repr, DecidableEq

/-- Result of the waiter: normal return, the thrown
`Command failed with status ...` error, the thrown
`Command timed out after ... seconds` error, or a rethrown poll error. -/
inductive WaitResult where
  | success
  | commandFailed (status : String) (standardErrorContent : Option String)
  | timeout (seconds : Nat)
  | pollError (e : String)
deriving Repr, DecidableEq

/-- Events of the waiter, in order: `setTimeout` sleeps and status polls.
`poll k` is the `getCommandInvocation` call made when `attempts = k`. -/
inductive WaitEvent where
  | sleep (ms : Nat)
  | poll (attempt : Nat)
deriving Repr, DecidableEq

/-- The `while (attempts < maxAttempts)` loop of `waitForCommandCompletion`.
`poll k` is the environment's answer to the `getCommandInvocation` call made
in the iteration that starts with `attempts = k` (each iteration makes
exactly one poll, and `attempts` counts the polls already made).
Mirrors the source: a terminal success status returns; a terminal failure
status throws (the thrown plain `Error` has no `code` field, so the `catch`
rethrows it); any other status sleeps 10000 ms and retries;
`InvocationDoesNotExist` sleeps 10000 ms and retries, also consuming one
attempt; any other poll error is rethrown; when the guard fails the
`Command timed out after maxAttempts * 10 seconds` error is thrown. -/
def waitLoop (poll : Nat → PollOutcome) (maxAttempts attempts : Nat) :
    List WaitEvent × WaitResult :=
  if _h : attempts < maxAttempts then
    match poll attempts with
    | .ok status stderrContent =>
      let s := status.getD ""
      if ["Success", "Complete"].contains s then
        ([.poll attempts], .success)
      else if ["Failed", "Cancelled", "TimedOut"].contains s then
        ([.poll attempts], .commandFailed s stderrContent)
      else
        let rest := waitLoop poll maxAttempts (attempts + 1)
        (.poll attempts :: .sleep 10000 :: rest.1, rest.2)
    | .invocationDoesNotExist =>
      let rest := waitLoop poll maxAttempts (attempts + 1)
      (.poll attempts :: .sleep 10000 :: rest.1, rest.2)
    | .err e => ([.poll attempts], .pollError e)
  else
    ([], .timeout (maxAttempts * 10))
termination_by maxAttempts - attempts

/-- The full `waitForCommandCompletion`: `maxAttempts = 30`, an initial 5000 ms sleep
before the polling loop starts, then the loop. -/
def waitForCommandCompletion (poll : Nat → PollOutcome) :
    List WaitEvent × WaitResult :=
  let maxAttempts := 30
  let rest := waitLoop poll maxAttempts 0
  (.sleep 5000 :: rest.1, rest.2)

/-- Number of status polls recorded in a waiter trace. -/
def countPolls (tr : List WaitEvent) : Nat :=
  (tr.filter fun e => match e with | .poll _ => true | .sleep _ => false).length

/-- A poll outcome on which the loop keeps going: a status outside both
terminal lists (after the `|| ''` coalesce), or `InvocationDoesNotExist`. -/
def retriesOn : PollOutcome → Bool
  | .ok status _ =>
    !(["Success", "Complete"].contains (status.getD "")
      || ["Failed", "Cancelled", "TimedOut"].contains (status.getD ""))
  | .invocationDoesNotExist => true
  | .err _ => false

theorem waitLoop_exhausted (poll : Nat → PollOutcome) (maxAttempts attempts : Nat)
    (h : ¬ attempts < maxAttempts) :
    waitLoop poll maxAttempts attempts = ([], .timeout (maxAttempts * 10)) := by
  rw [waitLoop]
  simp [h]

theorem waitLoop_retry (poll : Nat → PollOutcome) (maxAttempts attempts : Nat)
    (h : attempts < maxAttempts) (hr : retriesOn (poll attempts) = true) :
    waitLoop poll maxAttempts attempts =
      (.poll attempts :: .sleep 10000 :: (waitLoop poll maxAttempts (attempts + 1)).1,
       (waitLoop poll maxAttempts (attempts + 1)).2) := by
  rw [waitLoop]
  rcases hp : poll attempts with ⟨status, stderrContent⟩ | _ | e
  · simp [retriesOn, hp] at hr
    simp [h, hp, hr]
  · simp [h, hp]
  · simp [retriesOn, hp] at hr

theorem waitLoop_polls_le (poll : Nat → PollOutcome) :
    ∀ fuel maxAttempts attempts, maxAttempts - attempts ≤ fuel →
      countPolls (waitLoop poll maxAttempts attempts).1 ≤ maxAttempts - attempts := by
  intro fuel
  induction fuel with
  | zero =>
    intro maxAttempts attempts hle
    have h : ¬ attempts < maxAttempts := by omega
    rw [waitLoop_exhausted poll _ _ h]
    simp [countPolls]
  | succ n ih =>
    intro maxAttempts attempts hle
    by_cases h : attempts < maxAttempts
    · rw [waitLoop]
      simp only [h, dite_true]
      rcases hp : poll attempts with ⟨status, stderrContent⟩ | _ | e
      · simp only [hp]
        split
        · simp [countPolls]; omega
        · split
          · simp [countPolls]; omega
          · have := ih maxAttempts (attempts + 1) (by omega)
            simp [countPolls] at this ⊢
            omega
      · have := ih maxAttempts (attempts + 1) (by omega)
        simp only [hp]
        simp [countPolls] at this ⊢
        omega
      · simp [hp, countPolls]; omega
    · rw [waitLoop_exhausted poll _ _ h]
      simp [countPolls]

theorem waitLoop_terminal_success (poll : Nat → PollOutcome) (maxAttempts attempts : Nat)
    (h : attempts < maxAttempts) (status stderrContent : Option String)
    (hp : poll attempts = .ok status stderrContent)
    (hs : status.getD "" = "Success" ∨ status.getD "" = "Complete") :
    waitLoop poll maxAttempts attempts = ([.poll attempts], .success) := by
  rw [waitLoop]
  rcases hs with hs | hs <;> simp [h, hp, hs]

theorem waitLoop_terminal_failure (poll : Nat → PollOutcome) (maxAttempts attempts : Nat)
    (h : attempts < maxAttempts) (status stderrContent : Option String)
    (hp : poll attempts = .ok status stderrContent)
    (hf : status.getD "" = "Failed" ∨ status.getD "" = "Cancelled" ∨ status.getD "" = "TimedOut") :
    waitLoop poll maxAttempts attempts =
      ([.poll attempts], .commandFailed (status.getD "") stderrContent) := by
  rw [waitLoop]
  rcases hf with hf | hf | hf <;> simp [h, hp, hf]

theorem waitLoop_err (poll : Nat → PollOutcome) (maxAttempts attempts : Nat)
    (h : attempts < maxAttempts) (e : String) (hp : poll attempts = .err e) :
    waitLoop poll maxAttempts attempts = ([.poll attempts], .pollError e) := by
  rw [waitLoop]
  simp [h, hp]

theorem waitLoop_reach (poll : Nat → PollOutcome) (maxAttempts : Nat) :
    ∀ fuel k attempts, k - attempts ≤ fuel → attempts ≤ k → k ≤ maxAttempts →
      (∀ j, attempts ≤ j → j < k → retriesOn (poll j) = true) →
      ∃ pre, waitLoop poll maxAttempts attempts =
          (pre ++ (waitLoop poll maxAttempts k).1, (waitLoop poll maxAttempts k).2) ∧
        countPolls pre = k - attempts ∧ (∀ ms, WaitEvent.sleep ms ∈ pre → ms = 10000) := by
  intro fuel
  induction fuel with
  | zero =>
    intro k attempts h1 h2 _ _
    have hk : k = attempts := by omega
    subst hk
    exact ⟨[], by simp, by simp [countPolls], by simp⟩
  | succ n ih =>
    intro k attempts h1 h2 h3 hr
    by_cases hk : attempts = k
    · subst hk
      exact ⟨[], by simp, by simp [countPolls], by simp⟩
    · have hlt : attempts < k := by omega
      obtain ⟨pre, heq, hcount, hsleep⟩ :=
        ih k (attempts + 1) (by omega) (by omega) h3 (fun j hj1 hj2 => hr j (by omega) hj2)
      refine ⟨.poll attempts :: .sleep 10000 :: pre, ?_, ?_, ?_⟩
      · rw [waitLoop_retry poll maxAttempts attempts (by omega) (hr attempts le_rfl hlt), heq]
        simp
      · simp [countPolls] at hcount ⊢
        omega
      · intro ms hms
        simp at hms
        rcases hms with hms | hms
        · exact hms
        · exact hsleep ms hms

theorem waitLoop_success_spec (poll : Nat → PollOutcome) :
    ∀ fuel maxAttempts attempts, maxAttempts - attempts ≤ fuel →
      (waitLoop poll maxAttempts attempts).2 = .success →
      ∃ k status stderrContent, attempts ≤ k ∧ k < maxAttempts ∧
        poll k = .ok status stderrContent ∧
        (status.getD "" = "Success" ∨ status.getD "" = "Complete") := by
  intro fuel
  induction fuel with
  | zero =>
    intro maxAttempts attempts hle hres
    have h : ¬ attempts < maxAttempts := by omega
    rw [waitLoop_exhausted poll _ _ h] at hres
    simp at hres
  | succ n ih =>
    intro maxAttempts attempts hle hres
    by_cases h : attempts < maxAttempts
    · rw [waitLoop] at hres
      simp only [h, dite_true] at hres
      split at hres
      · rename_i status stderrContent hp
        split at hres
        · rename_i hs
          exact ⟨attempts, status, stderrContent, le_rfl, h, hp, by simpa using hs⟩
        · split at hres
          · simp at hres
          · rename_i hs hf
            obtain ⟨k, status', stderrContent', hk1, hk2, hk3, hk4⟩ :=
              ih maxAttempts (attempts + 1) (by omega) hres
            exact ⟨k, status', stderrContent', by omega, hk2, hk3, hk4⟩
      · rename_i hp
        obtain ⟨k, status', stderrContent', hk1, hk2, hk3, hk4⟩ :=
          ih maxAttempts (attempts + 1) (by omega) hres
        exact ⟨k, status', stderrContent', by omega, hk2, hk3, hk4⟩
      · simp at hres
    · rw [waitLoop_exhausted poll _ _ h] at hres
      simp at hres

theorem waitLoop_sleep_mem (poll : Nat → PollOutcome) :
    ∀ fuel maxAttempts attempts, maxAttempts - attempts ≤ fuel →
      ∀ ms, WaitEvent.sleep ms ∈ (waitLoop poll maxAttempts attempts).1 → ms = 10000 := by
  intro fuel
  induction fuel with
  | zero =>
    intro maxAttempts attempts hle ms hms
    have h : ¬ attempts < maxAttempts := by omega
    rw [waitLoop_exhausted poll _ _ h] at hms
    simp at hms
  | succ n ih =>
    intro maxAttempts attempts hle ms hms
    by_cases h : attempts < maxAttempts
    · rw [waitLoop] at hms
      simp only [h, dite_true] at hms
      split at hms
      · rename_i status stderrContent hp
        split at hms
        · simp at hms
        · split at hms
          · simp at hms
          · simp at hms
            rcases hms with hms | hms
            · exact hms
            · exact ih maxAttempts (attempts + 1) (by omega) ms hms
      · simp at hms
        rcases hms with hms | hms
        · exact hms
        · exact ih maxAttempts (attempts + 1) (by omega) ms hms
      · simp at hms
    · rw [waitLoop_exhausted poll _ _ h] at hms
      simp at hms

/-- C2: the waiter returns success only when some poll within the budget
returned a `Success` or `Complete` status; at the first non-retryable poll,
a `Success`/`Complete` status returns success immediately and a
`Failed`/`Cancelled`/`TimedOut` status fails immediately with the
CommandFailed error carrying the remote status and error detail — a
`commandFailed` result, never a `timeout`. -/
theorem waiter_terminal_status_classification (poll : Nat → PollOutcome) :
    ((waitForCommandCompletion poll).2 = .success →
      ∃ k status stderrContent, k < 30 ∧ poll k = .ok status stderrContent ∧
        (status.getD "" = "Success" ∨ status.getD "" = "Complete")) ∧
    (∀ k status stderrContent, k < 30 →
      (∀ j, j < k → retriesOn (poll j) = true) →
      poll k = .ok status stderrContent →
      ((status.getD "" = "Success" ∨ status.getD "" = "Complete") →
        (waitForCommandCompletion poll).2 = .success ∧
          countPolls (waitForCommandCompletion poll).1 = k + 1) ∧
      ((status.getD "" = "Failed" ∨ status.getD "" = "Cancelled" ∨ status.getD "" = "TimedOut") →
        (waitForCommandCompletion poll).2 = .commandFailed (status.getD "") stderrContent ∧
          countPolls (waitForCommandCompletion poll).1 = k + 1)) := by
  constructor
  · intro hres
    simp only [waitForCommandCompletion] at hres
    obtain ⟨k, status, stderrContent, _, hk2, hk3, hk4⟩ :=
      waitLoop_success_spec poll 30 30 0 (by omega) hres
    exact ⟨k, status, stderrContent, hk2, hk3, hk4⟩
  · intro k status stderrContent hk hbefore hp
    obtain ⟨pre, heq, hcount, _⟩ :=
      waitLoop_reach poll 30 k k 0 (by omega) (Nat.zero_le k) (by omega)
        (fun j _ hj2 => hbefore j hj2)
    constructor
    · intro hs
      rw [waitLoop_terminal_success poll 30 k hk status stderrContent hp hs] at heq
      constructor
      · simp [waitForCommandCompletion, heq]
      · simp [waitForCommandCompletion, heq, countPolls] at hcount ⊢
        omega
    · intro hf
      rw [waitLoop_terminal_failure poll 30 k hk status stderrContent hp hf] at heq
      constructor
      · simp [waitForCommandCompletion, heq]
      · simp [waitForCommandCompletion, heq, countPolls] at hcount ⊢
        omega

/-- C2 witness: a first poll with status `Failed` and error content `boom`
makes the waiter fail with `commandFailed "Failed" (some "boom")`. -/
theorem waiter_terminal_status_classification_witness :
    (waitForCommandCompletion (fun _ => .ok (some "Failed") (some "boom"))).2 =
      .commandFailed "Failed" (some "boom") := by
  have h := (waiter_terminal_status_classification
      (fun _ => .ok (some "Failed") (some "boom"))).2 0 (some "Failed") (some "boom")
      (by omega) (fun j hj => absurd hj (Nat.not_lt_zero j)) rfl
  exact (h.2 (Or.inl rfl)).1

/-- C3: the waiter's first event is the 5000 ms initial sleep (before any
poll), every later sleep is the 10000 ms poll interval, it never issues more
than 30 polls, and when every poll within the budget is non-terminal
(including the transient not-yet-visible retry, which consumes an attempt)
it issues exactly 30 polls and fails with the 300-second CommandTimeout. -/
theorem waiter_attempt_budget_and_constants (poll : Nat → PollOutcome) :
    (waitForCommandCompletion poll).1.head? = some (.sleep 5000) ∧
    (∀ ms, WaitEvent.sleep ms ∈ (waitForCommandCompletion poll).1.tail → ms = 10000) ∧
    countPolls (waitForCommandCompletion poll).1 ≤ 30 ∧
    ((∀ k, k < 30 → retriesOn (poll k) = true) →
      (waitForCommandCompletion poll).2 = .timeout 300 ∧
        countPolls (waitForCommandCompletion poll).1 = 30) := by
  refine ⟨by simp [waitForCommandCompletion], ?_, ?_, ?_⟩
  · intro ms hms
    simp only [waitForCommandCompletion, List.tail_cons] at hms
    exact waitLoop_sleep_mem poll 30 30 0 (by omega) ms hms
  · have := waitLoop_polls_le poll 30 30 0 (by omega)
    simp [waitForCommandCompletion, countPolls] at this ⊢
    omega
  · intro hall
    obtain ⟨pre, heq, hcount, _⟩ :=
      waitLoop_reach poll 30 30 30 0 (by omega) (by omega) (by omega)
        (fun j _ hj2 => hall j hj2)
    rw [waitLoop_exhausted poll 30 30 (by omega)] at heq
    constructor
    · simp [waitForCommandCompletion, heq]
    · simp [waitForCommandCompletion, heq, countPolls] at hcount ⊢
      omega

/-- C3 witness: thirty not-yet-visible polls exhaust the budget and time
out after 300 seconds. -/
theorem waiter_attempt_budget_and_constants_witness :
    (waitForCommandCompletion (fun _ => .invocationDoesNotExist)).2 = .timeout 300 ∧
    countPolls (waitForCommandCompletion (fun _ => .invocationDoesNotExist)).1 = 30 :=
  (waiter_attempt_budget_and_constants (fun _ => .invocationDoesNotExist)).2.2.2
    (fun _ _ => rfl)

/-- C4 counterexample: a poll that throws an error other than
`InvocationDoesNotExist` (here a throttling error on the very first poll)
escapes the waiter immediately, after one poll of the 30-attempt budget —
it is neither retried nor surfaced as CommandTimeout. -/
theorem waiter_other_error_escapes_counterexample :
    (waitForCommandCompletion (fun _ => .err "ThrottlingException")).2 =
      .pollError "ThrottlingException" ∧
    countPolls (waitForCommandCompletion (fun _ => .err "ThrottlingException")).1 = 1 := by
  have h := waitLoop_err (fun _ => .err "ThrottlingException") 30 0 (by omega)
    "ThrottlingException" rfl
  constructor
  · simp [waitForCommandCompletion, h]
  · simp [waitForCommandCompletion, h, countPolls]

/-- C4 amended: within the attempt budget, an `InvocationDoesNotExist` poll
error is retried after the same 10000 ms interval consuming one attempt, a
non-terminal status is likewise retried, a wholly retryable budget ends in
CommandTimeout, and any other poll error propagates immediately. -/
theorem waiter_nonterminal_poll_behavior (poll : Nat → PollOutcome) :
    (∀ k, k < 30 → poll k = .invocationDoesNotExist →
      waitLoop poll 30 k =
        (.poll k :: .sleep 10000 :: (waitLoop poll 30 (k + 1)).1,
         (waitLoop poll 30 (k + 1)).2)) ∧
    (∀ k status stderrContent, k < 30 → poll k = .ok status stderrContent →
      retriesOn (poll k) = true →
      waitLoop poll 30 k =
        (.poll k :: .sleep 10000 :: (waitLoop poll 30 (k + 1)).1,
         (waitLoop poll 30 (k + 1)).2)) ∧
    ((∀ k, k < 30 → retriesOn (poll k) = true) →
      (waitForCommandCompletion poll).2 = .timeout 300) ∧
    (∀ k e, k < 30 → poll k = .err e →
      (∀ j, j < k → retriesOn (poll j) = true) →
      (waitForCommandCompletion poll).2 = .pollError e ∧
        countPolls (waitForCommandCompletion poll).1 = k + 1) := by
  refine ⟨?_, ?_, ?_, ?_⟩
  · intro k hk hp
    exact waitLoop_retry poll 30 k hk (by simp [retriesOn, hp])
  · intro k status stderrContent hk _ hr
    exact waitLoop_retry poll 30 k hk hr
  · intro hall
    obtain ⟨pre, heq, _, _⟩ :=
      waitLoop_reach poll 30 30 30 0 (by omega) (by omega) (by omega)
        (fun j _ hj2 => hall j hj2)
    rw [waitLoop_exhausted poll 30 30 (by omega)] at heq
    simp [waitForCommandCompletion, heq]
  · intro k e hk hp hbefore
    obtain ⟨pre, heq, hcount, _⟩ :=
      waitLoop_reach poll 30 k k 0 (by omega) (Nat.zero_le k) (by omega)
        (fun j _ hj2 => hbefore j hj2)
    rw [waitLoop_err poll 30 k hk e hp] at heq
    constructor
    · simp [waitForCommandCompletion, heq]
    · simp [waitForCommandCompletion, heq, countPolls] at hcount ⊢
      omega

/-- C4 amended witness: one not-yet-visible poll, then a success poll. -/
theorem waiter_nonterminal_poll_behavior_witness :
    (waitLoop (fun k => if k = 0 then .invocationDoesNotExist else .ok (some "Success") none)
        30 0).2 = .success := by
  have h := (waiter_nonterminal_poll_behavior
      (fun k => if k = 0 then .invocationDoesNotExist else .ok (some "Success") none)).1
      0 (by omega) rfl
  rw [h]
  rw [waitLoop_terminal_success
    (fun k => if k = 0 then .invocationDoesNotExist else .ok (some "Success") none)
    30 1 (by omega) (some "Success") none rfl (Or.inl rfl)]

/-! ## Remote-call model -/

/-- Minimal JSON values, for the agent configuration document. -/
inductive Json where
  | str (s : String)
  | num (n : Nat)
  | arr (elems : List Json)
  | obj (fields : List (String × Json))

/-- Request body of `ssm.sendCommand`. -/
structure SendCommandParams where
  documentName : String
  instanceIds : List String
  parameters : List (String × List String)
deriving Repr, DecidableEq

/-- The install request of `installCloudWatchAgent` Step 1. -/
def installParams (instanceId : String) : SendCommandParams :=
  { documentName := "AWS-ConfigureAWSPackage"
    instanceIds := [instanceId]
    parameters := [("action", ["Install"]), ("name", ["AmazonCloudWatchAgent"])] }

/-- The fixed default agent configuration document built in Step 2
(`JSON.stringify` of this object is what gets stored). -/
def configContent : Json :=
  .obj [
    ("agent", .obj [
      ("metrics_collection_interval", .num 60),
      ("run_as_user", .str "root")]),
    ("metrics", .obj [
      ("metrics_collected", .obj [
        ("mem", .obj [
          ("measurement", .arr [.str "mem_used_percent"]),
          ("metrics_collection_interval", .num 60)]),
        ("swap", .obj [
          ("measurement", .arr [.str "swap_used_percent"])])]),
      ("append_dimensions", .obj [
        ("ImageId", .str "$\x7baws:ImageId\x7d"),
        ("InstanceId", .str "$\x7baws:InstanceId\x7d"),
        ("InstanceType", .str "$\x7baws:InstanceType\x7d")])])]

/-- The per-instance parameter key of Step 3. -/
def parameterName (instanceId : String) : String :=
  "/cloudwatch-agent/config/" ++ instanceId

/-- The configure-and-restart request of Step 4. -/
def configureParams (instanceId : String) : SendCommandParams :=
  { documentName := "AmazonCloudWatch-ManageAgent"
    instanceIds := [instanceId]
    parameters := [
      ("action", ["configure"]),
      ("mode", ["ec2"]),
      ("optionalConfigurationSource", ["ssm"]),
      ("optionalConfigurationLocation", [parameterName instanceId]),
      ("optionalRestart", ["yes"])] }

/-- One metric dimension of an alarm request. -/
structure Dimension where
  name : String
  value : String
deriving Repr, DecidableEq

/-- Request body of `cloudwatch.putMetricAlarm` (`namespaceName` embeds the
`Namespace` field). -/
structure PutMetricAlarmParams where
  alarmName : String
  metricName : String
  namespaceName : String
  period : Nat
  evaluationPeriods : Nat
  datapointsToAlarm : Nat
  threshold : Nat
  actionsEnabled : Bool
  alarmActions : List String
  comparisonOperator : String
  treatMissingData : String
  statistic : String
  dimensions : List Dimension
  alarmDescription : String
deriving Repr, DecidableEq

/-- Resolved instance metadata. -/
structure InstanceInfo where
  instanceType : String
  imageId : String
deriving Repr, DecidableEq

/-- The fields of `Reservations?.[0]?.Instances?.[0]` that `getInstanceInfo`
reads; either may be absent. -/
structure InstanceRecord where
  instanceType : Option String
  imageId : Option String
deriving Repr, DecidableEq

/-- One remote call issued by the core, with its request data. -/
inductive CallRecord where
  | sendCommand (params : SendCommandParams)
  | getCommandInvocation (commandId instanceId : String)
  | putParameter (name typeName : String) (value : Json) (overwrite : Bool)
  | putMetricAlarm (params : PutMetricAlarmParams)
  | deleteAlarms (alarmNames : List String)
  | describeInstances (instanceIds : List String)

/-- Errors thrown by the core, following the spec's taxonomy; each constructor
models a thrown JS `Error` together with the data in its message. -/
inductive AppError where
  | validation (msg : String)
  | commandFailed (status : String) (standardErrorContent : Option String)
  | commandTimeout (seconds : Nat)
  | lookupFailed (instanceId : String)
  | remote (e : String)
deriving Repr, DecidableEq

/-- Oracle for the remote collaborators: what each call site's AWS call
returns during this invocation. `Except.error e` models the SDK call
throwing; the `Option String` of a send is `Command?.CommandId`. -/
structure Env where
  snsTopicArn : Option String
  installSend : Except String (Option String)
  installPoll : Nat → PollOutcome
  putParameterResult : Except String Unit
  configureSend : Except String (Option String)
  configurePoll : Nat → PollOutcome
  describeInstancesResult : Except String (Option InstanceRecord)
  putMetricAlarmResult : String → Except String Unit
  deleteAlarmsResult : Except String Unit

/-- JavaScript truthiness of an optional string field: an absent value
(`undefined`) and the empty string are falsy. -/
def falsy : Option String → Bool
  | none => true
  | some s => s = ""

/-- Embeds `getInstanceInfo`: one `describeInstances` call; requires a first
instance record with truthy `InstanceType` and `ImageId`, else throws
`Could not find instance information ...`. -/
def getInstanceInfo (env : Env) (instanceId : String) :
    List CallRecord × Except AppError InstanceInfo :=
  ([.describeInstances [instanceId]],
   match env.describeInstancesResult with
   | .error e => .error (.remote e)
   | .ok none => .error (.lookupFailed instanceId)
   | .ok (some inst) =>
     if falsy inst.instanceType || falsy inst.imageId then
       .error (.lookupFailed instanceId)
     else
       .ok { instanceType := inst.instanceType.getD "", imageId := inst.imageId.getD "" })

/-- The error a waiter outcome throws, or its normal return. -/
def waitExcept : WaitResult → Except AppError Unit
  | .success => .ok ()
  | .commandFailed status stderrContent => .error (.commandFailed status stderrContent)
  | .timeout seconds => .error (.commandTimeout seconds)
  | .pollError e => .error (.remote e)

/-- The `getCommandInvocation` calls of a waiter run, as remote calls. -/
def waitCalls (commandId instanceId : String) (tr : List WaitEvent) : List CallRecord :=
  tr.filterMap fun e =>
    match e with
    | .poll _ => some (.getCommandInvocation commandId instanceId)
    | .sleep _ => none

/-- Embeds `installCloudWatchAgent`: install command, wait for it when a truthy
`CommandId` came back, write the agent configuration parameter with
`Overwrite: true`, configure command, wait for it likewise. The `catch`
logs and rethrows, so every error propagates unchanged. -/
def installCloudWatchAgent (env : Env) (instanceId : String) :
    List CallRecord × Except AppError Unit :=
  match env.installSend with
  | .error e => ([.sendCommand (installParams instanceId)], .error (.remote e))
  | .ok installCommandId =>
    let wait1 : List CallRecord × Except AppError Unit :=
      if falsy installCommandId then ([], .ok ())
      else
        let w := waitForCommandCompletion env.installPoll
        (waitCalls (installCommandId.getD "") instanceId w.1, waitExcept w.2)
    match wait1.2 with
    | .error e => (.sendCommand (installParams instanceId) :: wait1.1, .error e)
    | .ok _ =>
      match env.putParameterResult with
      | .error e =>
        (.sendCommand (installParams instanceId) :: wait1.1 ++
          [.putParameter (parameterName instanceId) "String" configContent true],
         .error (.remote e))
      | .ok _ =>
        match env.configureSend with
        | .error e =>
          (.sendCommand (installParams instanceId) :: wait1.1 ++
            [.putParameter (parameterName instanceId) "String" configContent true,
             .sendCommand (configureParams instanceId)],
           .error (.remote e))
        | .ok configureCommandId =>
          let wait2 : List CallRecord × Except AppError Unit :=
            if falsy configureCommandId then ([], .ok ())
            else
              let w := waitForCommandCompletion env.configurePoll
              (waitCalls (configureCommandId.getD "") instanceId w.1, waitExcept w.2)
          (.sendCommand (installParams instanceId) :: wait1.1 ++
            [.putParameter (parameterName instanceId) "String" configContent true,
             .sendCommand (configureParams instanceId)] ++ wait2.1,
           wait2.2)

/-- Alarm name of the CPU alarm. -/
def cpuAlarmName (instanceId : String) : String := "CPU-High-" ++ instanceId

/-- Alarm name of the Memory alarm. -/
def memoryAlarmName (instanceId : String) : String := "Memory-High-" ++ instanceId

/-- The CPU alarm request of `createAlarms`. -/
def cpuAlarmParams (instanceId snsTopicArn : String) : PutMetricAlarmParams :=
  { alarmName := cpuAlarmName instanceId
    metricName := "CPUUtilization"
    namespaceName := "AWS/EC2"
    period := 60
    evaluationPeriods := 1
    datapointsToAlarm := 1
    threshold := 80
    actionsEnabled := true
    alarmActions := [snsTopicArn]
    comparisonOperator := "GreaterThanThreshold"
    treatMissingData := "missing"
    statistic := "Average"
    dimensions := [{ name := "InstanceId", value := instanceId }]
    alarmDescription :=
      "CPU utilization is high for instance " ++ instanceId ++ " (>80% for 1 minute)" }

/-- The Memory alarm request of `createAlarms`. -/
def memoryAlarmParams (instanceId snsTopicArn : String) (info : InstanceInfo) :
    PutMetricAlarmParams :=
  { alarmName := memoryAlarmName instanceId
    metricName := "mem_used_percent"
    namespaceName := "CWAgent"
    period := 60
    evaluationPeriods := 1
    datapointsToAlarm := 1
    threshold := 75
    actionsEnabled := true
    alarmActions := [snsTopicArn]
    comparisonOperator := "GreaterThanThreshold"
    treatMissingData := "missing"
    statistic := "Average"
    dimensions := [
      { name := "InstanceId", value := instanceId },
      { name := "InstanceType", value := info.instanceType },
      { name := "ImageId", value := info.imageId }]
    alarmDescription :=
      "Memory utilization is high for instance " ++ instanceId ++ " (>75% for 1 minute)" }

/-- Embeds `createAlarms`: resolve instance info, then put the CPU alarm, then put
the Memory alarm; the `catch` logs and rethrows. -/
def createAlarms (env : Env) (instanceId snsTopicArn : String) :
    List CallRecord × Except AppError Unit :=
  match getInstanceInfo env instanceId with
  | (tr, .error e) => (tr, .error e)
  | (tr, .ok info) =>
    match env.putMetricAlarmResult (cpuAlarmName instanceId) with
    | .error e =>
      (tr ++ [.putMetricAlarm (cpuAlarmParams instanceId snsTopicArn)], .error (.remote e))
    | .ok _ =>
      match env.putMetricAlarmResult (memoryAlarmName instanceId) with
      | .error e =>
        (tr ++ [.putMetricAlarm (cpuAlarmParams instanceId snsTopicArn),
                .putMetricAlarm (memoryAlarmParams instanceId snsTopicArn info)],
         .error (.remote e))
      | .ok _ =>
        (tr ++ [.putMetricAlarm (cpuAlarmParams instanceId snsTopicArn),
                .putMetricAlarm (memoryAlarmParams instanceId snsTopicArn info)],
         .ok ())

/-- Embeds `deleteAlarms`: one `deleteAlarms` call naming both derived alarm names;
the `catch` logs and rethrows. -/
def deleteAlarms (env : Env) (instanceId : String) :
    List CallRecord × Except AppError Unit :=
  ([.deleteAlarms [cpuAlarmName instanceId, memoryAlarmName instanceId]],
   match env.deleteAlarmsResult with
   | .error e => .error (.remote e)
   | .ok _ => .ok ())

/-- The `detail` object of an inbound event: either field may be absent. -/
structure EventDetail where
  instanceId : Option String
  state : Option String
deriving Repr, DecidableEq

/-- An inbound event; `detail = none` models a missing or non-object
`detail`. -/
structure Event where
  detail : Option EventDetail
deriving Repr, DecidableEq

/-- The Lambda `handler`: check `SNS_TOPIC_ARN`, validate the event, then
branch on `state` (`running` → provision then create alarms, `terminated` →
delete alarms, anything else → do nothing); the `catch` logs and rethrows. -/
def handler (env : Env) (event : Event) : List CallRecord × Except AppError Unit :=
  if falsy env.snsTopicArn then
    ([], .error (.validation "SNS_TOPIC_ARN environment variable is not set"))
  else
    match event.detail with
    | none =>
      ([], .error (.validation "Invalid event structure: missing or invalid detail object"))
    | some detail =>
      if falsy detail.instanceId then
        ([], .error (.validation "Invalid event structure: missing instance-id"))
      else if falsy detail.state then
        ([], .error (.validation "Invalid event structure: missing state"))
      else
        let instanceId := detail.instanceId.getD ""
        let state := detail.state.getD ""
        if state = "running" then
          match installCloudWatchAgent env instanceId with
          | (tr, .error e) => (tr, .error e)
          | (tr, .ok _) =>
            let c := createAlarms env instanceId (env.snsTopicArn.getD "")
            (tr ++ c.1, c.2)
        else if state = "terminated" then
          deleteAlarms env instanceId
        else
          ([], .ok ())

/-- Effect of one remote call on the set of existing alarm names, per the
collaborators' contracts: alarm put is an upsert and alarm delete removes
the named alarms, tolerating already-absent names. -/
def applyCall (alarms : List String) : CallRecord → List String
  | .putMetricAlarm params =>
    if alarms.contains params.alarmName then alarms else alarms ++ [params.alarmName]
  | .deleteAlarms names => alarms.filter (fun a => !(names.contains a))
  | _ => alarms

/-- Alarm names existing after a trace of remote calls runs against a store
that started as `alarms`. -/
def applyTrace (alarms : List String) (tr : List CallRecord) : List String :=
  tr.foldl applyCall alarms

/-- Alarm names put by the calls of a trace, in order. -/
def putAlarmNames (tr : List CallRecord) : List String :=
  tr.filterMap fun c =>
    match c with
    | .putMetricAlarm params => some params.alarmName
    | _ => none

theorem falsy_eq_false_iff (o : Option String) :
    falsy o = false ↔ ∃ s, o = some s ∧ s ≠ "" := by
  cases o <;> simp [falsy]

/-- A fully cooperative environment: every collaborator call succeeds and
every dispatched command reports `Success` on its first poll. -/
def happyEnv : Env :=
  { snsTopicArn := some "arn:topic"
    installSend := .ok (some "cmd-install")
    installPoll := fun _ => .ok (some "Success") none
    putParameterResult := .ok ()
    configureSend := .ok (some "cmd-configure")
    configurePoll := fun _ => .ok (some "Success") none
    describeInstancesResult :=
      .ok (some { instanceType := some "t3.micro", imageId := some "ami-123" })
    putMetricAlarmResult := fun _ => .ok ()
    deleteAlarmsResult := .ok () }

theorem happy_wait :
    waitForCommandCompletion (fun _ => .ok (some "Success") none) =
      ([.sleep 5000, .poll 0], .success) := by
  have h := waitLoop_terminal_success (fun _ => .ok (some "Success") none) 30 0
    (by omega) (some "Success") none rfl (Or.inl rfl)
  simp [waitForCommandCompletion, h]

/-- C7: an inbound event with a missing `detail` object, missing
`detail["instance-id"]` or missing `detail.state` makes the handler raise a
validation error with an empty remote-call trace — no command dispatch,
parameter write, alarm put/delete or instance describe. -/
theorem handler_missing_fields_no_calls (env : Env) (event : Event)
    (h : event.detail = none ∨
      ∃ d, event.detail = some d ∧ (d.instanceId = none ∨ d.state = none)) :
    (handler env event).1 = [] ∧
    ∃ msg, (handler env event).2 = .error (.validation msg) := by
  by_cases hsns : falsy env.snsTopicArn
  · simp [handler, hsns]
  · rcases h with h | ⟨d, hd, h⟩
    · simp [handler, hsns, h]
    · rcases h with h | h
      · have hid : falsy d.instanceId = true := by rw [h]; rfl
        simp [handler, hsns, hd, hid]
      · by_cases hid : falsy d.instanceId
        · simp [handler, hsns, hd, hid]
        · have hst : falsy d.state = true := by rw [h]; rfl
          simp [handler, hsns, hd, hid, hst]

/-- C7 witness: an event with no detail object. -/
theorem handler_missing_fields_no_calls_witness :
    (handler happyEnv { detail := none }).1 = [] ∧
    ∃ msg, (handler happyEnv { detail := none }).2 = .error (.validation msg) :=
  handler_missing_fields_no_calls happyEnv { detail := none } (Or.inl rfl)

/-- C10: a present-but-empty `instance-id` or `state` is falsy, so the
handler rejects it exactly like the missing field, with no remote call; and
whenever the handler does make a remote call, the event carried a non-empty
instance id. -/
theorem handler_empty_string_fields_rejected (env : Env) (event : Event) :
    (falsy env.snsTopicArn = false →
      (∀ d, event.detail = some d → d.instanceId = some "" →
        handler env event =
          ([], .error (.validation "Invalid event structure: missing instance-id")) ∧
        handler env event = handler env { detail := some { d with instanceId := none } }) ∧
      (∀ d, event.detail = some d → falsy d.instanceId = false → d.state = some "" →
        handler env event =
          ([], .error (.validation "Invalid event structure: missing state")) ∧
        handler env event = handler env { detail := some { d with state := none } })) ∧
    ((handler env event).1 ≠ [] →
      ∃ d i, event.detail = some d ∧ d.instanceId = some i ∧ i ≠ "") := by
  constructor
  · intro hsns
    constructor
    · intro d hd hid
      have hid' : falsy d.instanceId = true := by rw [hid]; rfl
      constructor
      · simp [handler, hsns, hd, hid']
      · simp [handler, hsns, hd, hid', show falsy none = true from rfl]
    · intro d hd hid hst
      have hst' : falsy d.state = true := by rw [hst]; rfl
      constructor
      · simp [handler, hsns, hd, hid, hst']
      · simp [handler, hsns, hd, hid, hst', show falsy none = true from rfl]
  · intro htr
    by_cases hsns : falsy env.snsTopicArn
    · simp [handler, hsns] at htr
    · rcases hd : event.detail with _ | d
      · simp [handler, hsns, hd] at htr
      · by_cases hid : falsy d.instanceId
        · simp [handler, hsns, hd, hid] at htr
        · obtain ⟨i, hi, hine⟩ := (falsy_eq_false_iff d.instanceId).1 (by simpa using hid)
          exact ⟨d, i, rfl, hi, hine⟩

/-- C10 witness: an event whose state is the empty string. -/
theorem handler_empty_string_fields_rejected_witness :
    handler happyEnv { detail := some { instanceId := some "i-9", state := some "" } } =
      ([], .error (.validation "Invalid event structure: missing state")) := by
  have h := (handler_empty_string_fields_rejected happyEnv
      { detail := some { instanceId := some "i-9", state := some "" } }).1 rfl
  exact (h.2 { instanceId := some "i-9", state := some "" } rfl (by decide) rfl).1

/-- C9: with the collaborator contract that deleting missing alarms is not an
error, `deleteAlarms` succeeds regardless of which alarms exist, running its
trace twice leaves the same store as running it once, and afterwards both
derived alarm names are absent. -/
theorem deleteAlarms_idempotent (env : Env) (instanceId : String) (alarms : List String)
    (h : env.deleteAlarmsResult = .ok ()) :
    (deleteAlarms env instanceId).2 = .ok () ∧
    applyTrace (applyTrace alarms (deleteAlarms env instanceId).1)
        (deleteAlarms env instanceId).1 =
      applyTrace alarms (deleteAlarms env instanceId).1 ∧
    (applyTrace alarms (deleteAlarms env instanceId).1).contains
        (cpuAlarmName instanceId) = false ∧
    (applyTrace alarms (deleteAlarms env instanceId).1).contains
        (memoryAlarmName instanceId) = false := by
  refine ⟨by simp [deleteAlarms, h], ?_, ?_, ?_⟩
  · simp only [deleteAlarms, applyTrace, List.foldl_cons, List.foldl_nil, applyCall]
    rw [List.filter_filter]
    simp
  · simp [deleteAlarms, applyTrace, applyCall, List.mem_filter]
  · simp [deleteAlarms, applyTrace, applyCall, List.mem_filter]

/-- C9 witness: deleting the alarms of `i-9` from a store where only the CPU
alarm exists. -/
theorem deleteAlarms_idempotent_witness :
    (deleteAlarms happyEnv "i-9").2 = .ok () ∧
    applyTrace (applyTrace ["CPU-High-i-9", "Other"] (deleteAlarms happyEnv "i-9").1)
        (deleteAlarms happyEnv "i-9").1 =
      applyTrace ["CPU-High-i-9", "Other"] (deleteAlarms happyEnv "i-9").1 ∧
    (applyTrace ["CPU-High-i-9", "Other"] (deleteAlarms happyEnv "i-9").1).contains
        (cpuAlarmName "i-9") = false ∧
    (applyTrace ["CPU-High-i-9", "Other"] (deleteAlarms happyEnv "i-9").1).contains
        (memoryAlarmName "i-9") = false :=
  deleteAlarms_idempotent happyEnv "i-9" ["CPU-High-i-9", "Other"] rfl

theorem append_cancel_str {p a b : String} (h : p ++ a = p ++ b) : a = b := by
  have hd := congrArg String.data h
  rw [String.data_append, String.data_append] at hd
  exact String.ext (List.append_cancel_left hd)

theorem cpuAlarmName_ne_memoryAlarmName_aux (i j : String) :
    cpuAlarmName i ≠ memoryAlarmName j := by
  intro h
  have hh : (cpuAlarmName i).data.head? = (memoryAlarmName j).data.head? :=
    congrArg (fun s => s.data.head?) h
  simp only [cpuAlarmName, memoryAlarmName, String.data_append] at hh
  simp at hh

/-- C8: each alarm name is a pure function of the instance id (injective, so
equal ids give equal names and distinct ids give distinct names), a CPU name
never equals a Memory name — so two distinct ids yield four pairwise
distinct names — and the delete call names exactly the two alarm names the
create path uses for that id. -/
theorem alarm_names_pure_functions (env : Env) (i j t : String) (info : InstanceInfo) :
    (cpuAlarmName i = cpuAlarmName j ↔ i = j) ∧
    (memoryAlarmName i = memoryAlarmName j ↔ i = j) ∧
    cpuAlarmName i ≠ memoryAlarmName j ∧
    (i ≠ j → List.Pairwise (fun a b => a ≠ b)
      [cpuAlarmName i, memoryAlarmName i, cpuAlarmName j, memoryAlarmName j]) ∧
    (deleteAlarms env i).1 = [.deleteAlarms [cpuAlarmName i, memoryAlarmName i]] ∧
    (cpuAlarmParams i t).alarmName = cpuAlarmName i ∧
    (memoryAlarmParams i t info).alarmName = memoryAlarmName i ∧
    (∀ name, name ∈ putAlarmNames (createAlarms env i t).1 →
      name = cpuAlarmName i ∨ name = memoryAlarmName i) := by
  refine ⟨⟨fun h => append_cancel_str h, fun h => by rw [h]⟩,
    ⟨fun h => append_cancel_str h, fun h => by rw [h]⟩,
    cpuAlarmName_ne_memoryAlarmName_aux i j, ?_, rfl, rfl, rfl, ?_⟩
  · intro hij
    refine List.Pairwise.cons ?_ (List.Pairwise.cons ?_ (List.Pairwise.cons ?_ ?_))
    · intro b hb
      simp at hb
      rcases hb with hb | hb | hb
      · exact hb ▸ cpuAlarmName_ne_memoryAlarmName_aux i i
      · exact hb ▸ fun h => hij (append_cancel_str h)
      · exact hb ▸ cpuAlarmName_ne_memoryAlarmName_aux i j
    · intro b hb
      simp at hb
      rcases hb with hb | hb
      · exact hb ▸ fun h => (cpuAlarmName_ne_memoryAlarmName_aux j i) h.symm
      · exact hb ▸ fun h => hij (append_cancel_str h)
    · intro b hb
      simp at hb
      exact hb ▸ cpuAlarmName_ne_memoryAlarmName_aux j j
    · simp
  · intro name hname
    rcases hdesc : env.describeInstancesResult with e | instOpt
    · simp [createAlarms, getInstanceInfo, hdesc, putAlarmNames] at hname
    · rcases instOpt with _ | inst
      · simp [createAlarms, getInstanceInfo, hdesc, putAlarmNames] at hname
      · by_cases hfal : (falsy inst.instanceType || falsy inst.imageId) = true
        · simp [createAlarms, getInstanceInfo, hdesc, hfal, putAlarmNames] at hname
        · rcases hcpu : env.putMetricAlarmResult (cpuAlarmName i) with e | u
          · simp [createAlarms, getInstanceInfo, hdesc, hfal, hcpu, putAlarmNames,
              cpuAlarmParams] at hname
            exact Or.inl hname
          · rcases hmem : env.putMetricAlarmResult (memoryAlarmName i) with e | u
            · simp [createAlarms, getInstanceInfo, hdesc, hfal, hcpu, hmem, putAlarmNames,
                cpuAlarmParams, memoryAlarmParams] at hname
              exact hname
            · simp [createAlarms, getInstanceInfo, hdesc, hfal, hcpu, hmem, putAlarmNames,
                cpuAlarmParams, memoryAlarmParams] at hname
              exact hname

/-- C8 witness: the four names derived from `i-1` and `i-2`. -/
theorem alarm_names_pure_functions_witness :
    cpuAlarmName "i-1" ≠ memoryAlarmName "i-2" ∧
    List.Pairwise (fun a b => a ≠ b)
      [cpuAlarmName "i-1", memoryAlarmName "i-1", cpuAlarmName "i-2", memoryAlarmName "i-2"] :=
  ⟨(alarm_names_pure_functions happyEnv "i-1" "i-2" "arn:topic"
      { instanceType := "t3.micro", imageId := "ami-123" }).2.2.1,
   (alarm_names_pure_functions happyEnv "i-1" "i-2" "arn:topic"
      { instanceType := "t3.micro", imageId := "ami-123" }).2.2.2.1 (by decide)⟩

/-- C1: for a validated event, state `running` runs the provisioner and,
only if it succeeded, `createAlarms`, propagating a provisioning failure
with no alarm put; state `terminated` performs exactly the alarm delete and
never provisions; any other state makes no remote call and succeeds. -/
theorem handler_dispatch_on_state (env : Env) (d : EventDetail) (i s : String)
    (hsns : falsy env.snsTopicArn = false)
    (hi : d.instanceId = some i) (hine : i ≠ "")
    (hs : d.state = some s) (hsne : s ≠ "") :
    (s = "running" →
      (∀ tr e, installCloudWatchAgent env i = (tr, .error e) →
        handler env { detail := some d } = (tr, .error e)) ∧
      (∀ tr, installCloudWatchAgent env i = (tr, .ok ()) →
        handler env { detail := some d } =
          (tr ++ (createAlarms env i (env.snsTopicArn.getD "")).1,
           (createAlarms env i (env.snsTopicArn.getD "")).2))) ∧
    (s = "terminated" →
      handler env { detail := some d } = deleteAlarms env i) ∧
    (s ≠ "running" → s ≠ "terminated" →
      handler env { detail := some d } = ([], .ok ())) := by
  have hid : falsy (some i) = false := by simpa [falsy] using hine
  have hst : falsy (some s) = false := by simpa [falsy] using hsne
  refine ⟨?_, ?_, ?_⟩
  · rintro rfl
    constructor
    · intro tr e htr
      simp [handler, hsns, hid, hst, hi, hs, htr]
    · intro tr htr
      simp [handler, hsns, hid, hst, hi, hs, htr]
  · rintro rfl
    simp [handler, hsns, hid, hst, hi, hs]
  · intro h1 h2
    simp [handler, hsns, hid, hst, hi, hs, h1, h2]

/-- C1 witness: a `terminated` event performs exactly the alarm delete. -/
theorem handler_dispatch_on_state_witness :
    handler happyEnv { detail := some { instanceId := some "i-9", state := some "terminated" } } =
      deleteAlarms happyEnv "i-9" :=
  (handler_dispatch_on_state happyEnv { instanceId := some "i-9", state := some "terminated" }
    "i-9" "terminated" rfl rfl (by decide) rfl (by decide)).2.1 rfl

/-- C5: the Agent Provisioner's steps run strictly in order — install
dispatch, install wait via the Waiter, overwriting write of the parameter
key `/cloudwatch-agent/config/<instanceId>`, configure dispatch, configure
wait via the Waiter — each gated on the previous step succeeding; a step's
failure aborts the remaining steps and propagates the underlying error
unchanged, with no retry of the overall provision. -/
theorem provisioner_step_sequence (env : Env) (instanceId : String) :
    (∀ e, env.installSend = .error e →
      installCloudWatchAgent env instanceId =
        ([.sendCommand (installParams instanceId)], .error (.remote e))) ∧
    (∀ cid, env.installSend = .ok (some cid) → cid ≠ "" →
      (∀ err, waitExcept (waitForCommandCompletion env.installPoll).2 = .error err →
        installCloudWatchAgent env instanceId =
          (.sendCommand (installParams instanceId) ::
            waitCalls cid instanceId (waitForCommandCompletion env.installPoll).1,
           .error err)) ∧
      (waitExcept (waitForCommandCompletion env.installPoll).2 = .ok () →
        (∀ e, env.putParameterResult = .error e →
          installCloudWatchAgent env instanceId =
            (.sendCommand (installParams instanceId) ::
              waitCalls cid instanceId (waitForCommandCompletion env.installPoll).1 ++
              [.putParameter (parameterName instanceId) "String" configContent true],
             .error (.remote e))) ∧
        (env.putParameterResult = .ok () →
          (∀ e, env.configureSend = .error e →
            installCloudWatchAgent env instanceId =
              (.sendCommand (installParams instanceId) ::
                waitCalls cid instanceId (waitForCommandCompletion env.installPoll).1 ++
                [.putParameter (parameterName instanceId) "String" configContent true,
                 .sendCommand (configureParams instanceId)],
               .error (.remote e))) ∧
          (∀ cid2, env.configureSend = .ok (some cid2) → cid2 ≠ "" →
            installCloudWatchAgent env instanceId =
              (.sendCommand (installParams instanceId) ::
                waitCalls cid instanceId (waitForCommandCompletion env.installPoll).1 ++
                [.putParameter (parameterName instanceId) "String" configContent true,
                 .sendCommand (configureParams instanceId)] ++
                waitCalls cid2 instanceId (waitForCommandCompletion env.configurePoll).1,
               waitExcept (waitForCommandCompletion env.configurePoll).2))))) := by
  refine ⟨?_, ?_⟩
  · intro e hsend
    simp [installCloudWatchAgent, hsend]
  · intro cid hsend hcid
    have hc : falsy (some cid) = false := by simpa [falsy] using hcid
    refine ⟨?_, ?_⟩
    · intro err hw
      simp [installCloudWatchAgent, hsend, hc, hw]
    · intro hw
      refine ⟨?_, ?_⟩
      · intro e hparam
        simp [installCloudWatchAgent, hsend, hc, hw, hparam]
      · intro hparam
        refine ⟨?_, ?_⟩
        · intro e hconf
          simp [installCloudWatchAgent, hsend, hc, hw, hparam, hconf]
        · intro cid2 hconf hcid2
          have hc2 : falsy (some cid2) = false := by simpa [falsy] using hcid2
          simp [installCloudWatchAgent, hsend, hc, hw, hparam, hconf, hc2]

/-- C5 witness: a fully cooperative environment produces exactly the
five-step call sequence and succeeds. -/
theorem provisioner_step_sequence_witness :
    installCloudWatchAgent happyEnv "i-9" =
      ([.sendCommand (installParams "i-9"),
        .getCommandInvocation "cmd-install" "i-9",
        .putParameter (parameterName "i-9") "String" configContent true,
        .sendCommand (configureParams "i-9"),
        .getCommandInvocation "cmd-configure" "i-9"],
       .ok ()) := by
  have hw1 : waitExcept (waitForCommandCompletion happyEnv.installPoll).2 = .ok () := by
    rw [show happyEnv.installPoll = (fun _ => PollOutcome.ok (some "Success") none) from rfl,
      happy_wait]
    rfl
  have h := ((((provisioner_step_sequence happyEnv "i-9").2 "cmd-install" rfl
      (by decide)).2 hw1).2 rfl).2 "cmd-configure" rfl (by decide)
  rw [h, show happyEnv.installPoll = (fun _ => PollOutcome.ok (some "Success") none) from rfl,
    show happyEnv.configurePoll = (fun _ => PollOutcome.ok (some "Success") none) from rfl,
    happy_wait]
  simp [waitCalls, waitExcept]

/-- C6: createAlarms resolves instance metadata first; when resolution fails
(describe error, no record, or a missing field) no alarm is put; on success
it issues exactly two alarm puts — CPU then Memory — and those requests
carry the fixed constants of the source: CPU threshold 80 and Memory
threshold 75, period 60, one evaluation period, one datapoint-to-alarm,
GreaterThanThreshold, Average, missing-data `missing`, the single
notification target as the only action, CPU dimensioned only by InstanceId
and Memory by InstanceId, InstanceType and ImageId from the metadata. -/
theorem createAlarms_two_upserts (env : Env) (instanceId snsTopicArn : String) :
    (∀ e, env.describeInstancesResult = .error e →
      createAlarms env instanceId snsTopicArn =
        ([.describeInstances [instanceId]], .error (.remote e))) ∧
    (env.describeInstancesResult = .ok none →
      createAlarms env instanceId snsTopicArn =
        ([.describeInstances [instanceId]], .error (.lookupFailed instanceId))) ∧
    (∀ inst, env.describeInstancesResult = .ok (some inst) →
      (falsy inst.instanceType || falsy inst.imageId) = true →
      createAlarms env instanceId snsTopicArn =
        ([.describeInstances [instanceId]], .error (.lookupFailed instanceId))) ∧
    (∀ instanceType imageId, instanceType ≠ "" → imageId ≠ "" →
      env.describeInstancesResult =
        .ok (some { instanceType := some instanceType, imageId := some imageId }) →
      env.putMetricAlarmResult (cpuAlarmName instanceId) = .ok () →
      env.putMetricAlarmResult (memoryAlarmName instanceId) = .ok () →
      createAlarms env instanceId snsTopicArn =
        ([.describeInstances [instanceId],
          .putMetricAlarm (cpuAlarmParams instanceId snsTopicArn),
          .putMetricAlarm (memoryAlarmParams instanceId snsTopicArn
            { instanceType := instanceType, imageId := imageId })],
         .ok ())) ∧
    (cpuAlarmParams instanceId snsTopicArn).threshold = 80 ∧
    (cpuAlarmParams instanceId snsTopicArn).period = 60 ∧
    (cpuAlarmParams instanceId snsTopicArn).evaluationPeriods = 1 ∧
    (cpuAlarmParams instanceId snsTopicArn).datapointsToAlarm = 1 ∧
    (cpuAlarmParams instanceId snsTopicArn).comparisonOperator = "GreaterThanThreshold" ∧
    (cpuAlarmParams instanceId snsTopicArn).statistic = "Average" ∧
    (cpuAlarmParams instanceId snsTopicArn).treatMissingData = "missing" ∧
    (cpuAlarmParams instanceId snsTopicArn).dimensions =
      [{ name := "InstanceId", value := instanceId }] ∧
    (cpuAlarmParams instanceId snsTopicArn).alarmActions = [snsTopicArn] ∧
    (∀ info, (memoryAlarmParams instanceId snsTopicArn info).threshold = 75 ∧
      (memoryAlarmParams instanceId snsTopicArn info).period = 60 ∧
      (memoryAlarmParams instanceId snsTopicArn info).evaluationPeriods = 1 ∧
      (memoryAlarmParams instanceId snsTopicArn info).datapointsToAlarm = 1 ∧
      (memoryAlarmParams instanceId snsTopicArn info).comparisonOperator =
        "GreaterThanThreshold" ∧
      (memoryAlarmParams instanceId snsTopicArn info).statistic = "Average" ∧
      (memoryAlarmParams instanceId snsTopicArn info).treatMissingData = "missing" ∧
      (memoryAlarmParams instanceId snsTopicArn info).dimensions =
        [{ name := "InstanceId", value := instanceId },
         { name := "InstanceType", value := info.instanceType },
         { name := "ImageId", value := info.imageId }] ∧
      (memoryAlarmParams instanceId snsTopicArn info).alarmActions = [snsTopicArn]) := by
  refine ⟨?_, ?_, ?_, ?_, rfl, rfl, rfl, rfl, rfl, rfl, rfl, rfl, rfl,
    fun info => ⟨rfl, rfl, rfl, rfl, rfl, rfl, rfl, rfl, rfl⟩⟩
  · intro e hdesc
    simp [createAlarms, getInstanceInfo, hdesc]
  · intro hdesc
    simp [createAlarms, getInstanceInfo, hdesc]
  · intro inst hdesc hfal
    simp [createAlarms, getInstanceInfo, hdesc, hfal]
  · intro instanceType imageId hty himg hdesc hcpu hmem
    have h1 : falsy (some instanceType) = false := by simpa [falsy] using hty
    have h2 : falsy (some imageId) = false := by simpa [falsy] using himg
    simp [createAlarms, getInstanceInfo, hdesc, h1, h2, hcpu, hmem]

/-- C6 witness: alarm creation for `i-9` against the cooperative
environment. -/
theorem createAlarms_two_upserts_witness :
    createAlarms happyEnv "i-9" "arn:topic" =
      ([.describeInstances ["i-9"],
        .putMetricAlarm (cpuAlarmParams "i-9" "arn:topic"),
        .putMetricAlarm (memoryAlarmParams "i-9" "arn:topic"
          { instanceType := "t3.micro", imageId := "ami-123" })],
       .ok ()) :=
  (createAlarms_two_upserts happyEnv "i-9" "arn:topic").2.2.2.1 "t3.micro" "ami-123"
    (by decide) (by decide) rfl rfl rfl

end EC2Monitor
